import Mathlib

/-!
Shallow embedding of `navigation-location-updater.ts` (theia, editor package):
the editor geometry model, the navigation-location tagged union, and the
`NavigationLocationUpdater.affects` decision function, together with theorems
about the behaviour of `affects`.

Line/character coordinates are JavaScript numbers in the source; they are
modelled as `Int` so that shifting by a negative delta behaves exactly as in
the source.  The NaN sentinel used for a not-applicable shift is modelled as
`none : Option Int`; the source's `Number.isNaN` guard in the shift helpers
becomes the `none` case.
-/

set_option linter.unusedVariables false

namespace Theia

/-- A zero-based text coordinate: line and character. -/
structure Position where
  line : Int
  character : Int
deriving DecidableEq, Repr

/-- A text range between two positions.  No ordering invariant between
`start` and `end` is enforced; the updater normalizes with min/max. -/
structure Range where
  start : Position
  «end» : Position
deriving DecidableEq, Repr

/-- The payload of a content change: the replaced range, the length of the
replaced text, and the inserted text (`text = ""` is a pure deletion). -/
structure TextDocumentContentChangeDelta where
  range : Range
  rangeLength : Int
  text : String
deriving DecidableEq, Repr

/-- Modelled from the spec: the closed three-variant payload of a navigation
location (cursor position, selection range, or content-change delta); the
defining module `navigation-location.ts` is not among the provided sources. -/
inductive LocationContext where
  | cursor (position : Position)
  | selection (range : Range)
  | contentChange (delta : TextDocumentContentChangeDelta)
deriving DecidableEq, Repr

/-- Modelled from the spec: the three variant tags of a navigation location. -/
inductive LocationType where
  | CURSOR
  | SELECTION
  | CONTENT_CHANGE
deriving DecidableEq, Repr

/-- Modelled from the spec: a navigation location is a resource identifier
(`uri`, compared as a normalized string) together with a payload; the type
tag is determined by the payload variant. -/
structure NavigationLocation where
  uri : String
  context : LocationContext
deriving DecidableEq, Repr

/-- Modelled from the spec: the variant tag of a location. -/
def NavigationLocation.type (l : NavigationLocation) : LocationType :=
  match l.context with
  | .cursor _ => .CURSOR
  | .selection _ => .SELECTION
  | .contentChange _ => .CONTENT_CHANGE

/-- Modelled from the spec: the effective range of a payload — a point range
for a cursor, the selection range itself, and the replaced range of a
content change. -/
def LocationContext.toRange : LocationContext → Range
  | .cursor p => { start := p, «end» := p }
  | .selection r => r
  | .contentChange d => d.range

/-- Modelled from the spec: `NavigationLocation.range`.  The source signature
allows `undefined`, but the extraction is defined for each of the three
variants, so the model always returns `some`. -/
def NavigationLocation.range (l : NavigationLocation) : Option Range :=
  some l.context.toRange

/-- The three-way result of `affects`: `false`, a replacement location, or
`undefined` (the candidate has to be deleted). -/
inductive AffectsResult where
  | NOT_AFFECTED
  | REPLACEMENT (location : NavigationLocation)
  | DELETED
deriving DecidableEq, Repr

/-- `shiftLine` on a single position (the `Position` overload of the source).
A `none` diff models the NaN sentinel, for which the shift is a no-op. -/
def shiftLinePos (input : Position) (diff : Option Int) : Position :=
  match diff with
  | none => input
  | some d => { line := input.line + d, character := input.character }

/-- `shiftLine` on a range: both endpoints are shifted. -/
def shiftLine (input : Range) (diff : Option Int) : Range :=
  { start := shiftLinePos input.start diff, «end» := shiftLinePos input.«end» diff }

/-- `shiftCharacter` on a single position (the `Position` overload). -/
def shiftCharacterPos (input : Position) (diff : Option Int) : Position :=
  match diff with
  | none => input
  | some d => { line := input.line, character := input.character + d }

/-- `shiftCharacter` on a range: both endpoints are shifted. -/
def shiftCharacter (input : Range) (diff : Option Int) : Range :=
  { start := shiftCharacterPos input.start diff, «end» := shiftCharacterPos input.«end» diff }

/-- `handleBefore` from the source: shifts the candidate's extracted range by
the line and character deltas (each multiplied by `-1` for a deletion; a
`none` delta is the NaN no-op) and rebuilds the payload for the candidate's
variant.  The source's final `throw` branch is unreachable because the
variant union is closed, so the Lean match is exhaustive without it. -/
def handleBefore (candidate : NavigationLocation) (modification : Range)
    (lineDiff : Option Int) (characterDiff : Option Int) (deletion : Bool) :
    LocationContext :=
  let range0 := candidate.context.toRange
  let range1 := shiftLine range0 (if deletion then lineDiff.map (fun d => d * -1) else lineDiff)
  let range2 :=
    shiftCharacter range1 (if deletion then characterDiff.map (fun d => d * -1) else characterDiff)
  match candidate.context with
  | .cursor _ => .cursor range2.start
  | .selection _ => .selection range2
  | .contentChange d =>
    .contentChange { range := range2, rangeLength := d.rangeLength, text := d.text }

/-- `affects` from the source.  The top-level match renders the
`ContentChangeLocation.is` guard: a non content-change `other` yields
`false` (NOT_AFFECTED).  `Math.abs` on the line span is rendered as
`Int.natAbs` cast back to `Int`, and the `deletion` flag is the source's
`otherLocation.context.text === ''` test. -/
def affects (candidateLocation otherLocation : NavigationLocation) : AffectsResult :=
  match otherLocation with
  | ⟨_, .cursor _⟩ => .NOT_AFFECTED
  | ⟨_, .selection _⟩ => .NOT_AFFECTED
  | ⟨otherUri, .contentChange delta⟩ =>
    if candidateLocation.uri ≠ otherUri then .NOT_AFFECTED
    else
      match NavigationLocation.range candidateLocation,
          NavigationLocation.range ⟨otherUri, .contentChange delta⟩ with
      | some candidate, some other =>
        let otherMaxLine := max other.start.line other.«end».line
        let candidateMinLine := min candidate.start.line candidate.«end».line
        let candidateMinCharacter := min candidate.start.character candidate.«end».character
        let lineDiff : Int := ((other.start.line - other.«end».line).natAbs : Int)
        if otherMaxLine = candidateMinLine ∨ otherMaxLine < candidateMinLine then
          let characterDiff : Option Int :=
            if otherMaxLine = candidateMinLine then
              if other.start.line = otherMaxLine ∧ other.start.character ≤ candidateMinCharacter then
                some (candidateMinCharacter - other.start.character)
              else if other.«end».character ≤ candidateMinCharacter then
                some (candidateMinCharacter - other.«end».character)
              else none
            else none
          .REPLACEMENT
            { uri := candidateLocation.uri,
              context :=
                handleBefore candidateLocation other (some lineDiff) characterDiff
                  (delta.text == "") }
        else .NOT_AFFECTED
      | _, _ => .NOT_AFFECTED

/-- The signed line delta of the spec's sign rule: the magnitude
`|other.start.line - other.end.line|`, subtracted for a pure deletion
(empty inserted text), added otherwise. -/
def signedLineDelta (delta : TextDocumentContentChangeDelta) : Int :=
  if delta.text == "" then -(((delta.range.start.line - delta.range.«end».line).natAbs : Int))
  else ((delta.range.start.line - delta.range.«end».line).natAbs : Int)

/-- The character-delta selection rule as the spec states it, on the
candidate's effective range and the edit's range: defined only when the
edit's max line equals the candidate's min line, choosing
`candidateMinCharacter - other.start.character` when the edit's start sits
on that max line at or before the candidate's min character, else
`candidateMinCharacter - other.end.character` when the edit's end character
is at or before the candidate's min character; `none` otherwise. -/
def charDeltaSpec (candidate other : Range) : Option Int :=
  if max other.start.line other.«end».line = min candidate.start.line candidate.«end».line then
    if other.start.line = max other.start.line other.«end».line
        ∧ other.start.character ≤ min candidate.start.character candidate.«end».character then
      some (min candidate.start.character candidate.«end».character - other.start.character)
    else if other.«end».character ≤ min candidate.start.character candidate.«end».character then
      some (min candidate.start.character candidate.«end».character - other.«end».character)
    else none
  else none

/-- The effectively applied character delta: the selected magnitude with the
deletion/insertion sign rule; a not-applicable (`none`) delta applies no
shift. -/
def signedCharDelta (candidate other : Range) (text : String) : Int :=
  match charDeltaSpec candidate other with
  | none => 0
  | some d => if text == "" then -d else d

/-- Rebuild a payload of the same variant around a new range — the shape of
the reconstruction step of `handleBefore`. -/
def LocationContext.withRange : LocationContext → Range → LocationContext
  | .cursor _, r => .cursor r.start
  | .selection _, r => .selection r
  | .contentChange d, r =>
    .contentChange { range := r, rangeLength := d.rangeLength, text := d.text }

/-- The `rangeLength` payload field, for a content-change payload. -/
def LocationContext.ccRangeLength : LocationContext → Option Int
  | .contentChange d => some d.rangeLength
  | _ => none

/-- The `text` payload field, for a content-change payload. -/
def LocationContext.ccText : LocationContext → Option String
  | .contentChange d => some d.text
  | _ => none

/-- Helper: the first guard of `affects`: differing uris yield `false`. -/
lemma affects_of_ne_uri (c o : NavigationLocation) (h : ¬ c.uri = o.uri) :
    affects c o = .NOT_AFFECTED := by
  obtain ⟨ouri, octx⟩ := o
  cases octx with
  | cursor p => rfl
  | selection r => rfl
  | contentChange delta =>
    simp only [affects]
    rw [if_pos h]

/-- Helper: reduction of `affects` for a same-uri content change, exposing
the branch structure of the source. -/
lemma affects_contentChange_same_uri (c : NavigationLocation) (ouri : String)
    (delta : TextDocumentContentChangeDelta) (huri : c.uri = ouri) :
    affects c ⟨ouri, .contentChange delta⟩ =
      if max delta.range.start.line delta.range.«end».line
          = min c.context.toRange.start.line c.context.toRange.«end».line
        ∨ max delta.range.start.line delta.range.«end».line
          < min c.context.toRange.start.line c.context.toRange.«end».line then
        .REPLACEMENT
          { uri := c.uri,
            context :=
              handleBefore c delta.range
                (some ((delta.range.start.line - delta.range.«end».line).natAbs : Int))
                (if max delta.range.start.line delta.range.«end».line
                    = min c.context.toRange.start.line c.context.toRange.«end».line then
                  if delta.range.start.line = max delta.range.start.line delta.range.«end».line
                      ∧ delta.range.start.character
                        ≤ min c.context.toRange.start.character c.context.toRange.«end».character then
                    some (min c.context.toRange.start.character c.context.toRange.«end».character
                      - delta.range.start.character)
                  else if delta.range.«end».character
                      ≤ min c.context.toRange.start.character c.context.toRange.«end».character then
                    some (min c.context.toRange.start.character c.context.toRange.«end».character
                      - delta.range.«end».character)
                  else none
                else none)
                (delta.text == "") }
      else .NOT_AFFECTED := by
  simp only [affects, NavigationLocation.range]
  rw [if_neg (not_not_intro huri)]
  simp only [LocationContext.toRange]

/-- Claim C1: for an edit that strictly contains the candidate from both sides
(edit start strictly before the candidate's start, edit end strictly after
the candidate's end), the claim and the class's own documentation require
the DELETED (`undefined`) outcome; evaluating `affects` at such an input
shows the code instead returns `false` (NOT_AFFECTED) — no code path of
`affects` produces the DELETED outcome. -/
theorem c1_strict_containment_not_deleted :
    affects ⟨"file:///a", .cursor ⟨14, 16⟩⟩
        ⟨"file:///a", .contentChange ⟨⟨⟨13, 0⟩, ⟨15, 0⟩⟩, -1, ""⟩⟩
      = .NOT_AFFECTED := by decide

/-- Claim C2: for the cursor candidate at `(14,16)` and the same-uri edit over
`(14,2)-(14,6)`, the code returns the replacement cursor `(14,2)` for the
pure deletion and `(14,30)` for the insertion — it shifts by
`candidateMinCharacter - other.start.character = 14`, the distance to the
edit's start — whereas the claim and the repository's own tests expect
`(14,12)` and `(14,20)`. -/
theorem c2_same_line_before_eval :
    affects ⟨"file:///a", .cursor ⟨14, 16⟩⟩
        ⟨"file:///a", .contentChange ⟨⟨⟨14, 2⟩, ⟨14, 6⟩⟩, -1, ""⟩⟩
      = .REPLACEMENT ⟨"file:///a", .cursor ⟨14, 2⟩⟩
    ∧ affects ⟨"file:///a", .cursor ⟨14, 16⟩⟩
        ⟨"file:///a", .contentChange ⟨⟨⟨14, 2⟩, ⟨14, 6⟩⟩, -1,
          "Some added content that does not matter for the tests"⟩⟩
      = .REPLACEMENT ⟨"file:///a", .cursor ⟨14, 30⟩⟩ := by decide

/-- Claim C3: a no-op edit (`range.start = range.end` and `text = ""`) on the
candidate's line does not yield NOT_AFFECTED as the claim and the method's
own documentation state: evaluating `affects` shows the code returns a
replacement, and it even moves the cursor from `(14,16)` to `(14,2)`. -/
theorem c3_noop_edit_moves_cursor :
    affects ⟨"file:///a", .cursor ⟨14, 16⟩⟩
        ⟨"file:///a", .contentChange ⟨⟨⟨14, 2⟩, ⟨14, 2⟩⟩, 0, ""⟩⟩
      = .REPLACEMENT ⟨"file:///a", .cursor ⟨14, 2⟩⟩ := by decide

/-- Claim C6: for the cursor at `(14,16)`, a non-empty insertion over
`(2,38)-(14,16)` does yield the replacement cursor `(26,16)` as claimed,
but the same-line insertion over `(14,5)-(14,16)` yields `(14,27)`
(a shift by `16 - 5 = 11`), not the `(14,37)` the claim and the
repository's own test expect. -/
theorem c6_insert_at_offset_eval :
    affects ⟨"file:///a", .cursor ⟨14, 16⟩⟩
        ⟨"file:///a", .contentChange ⟨⟨⟨2, 38⟩, ⟨14, 16⟩⟩, -1,
          "Some added content that does not matter for the tests"⟩⟩
      = .REPLACEMENT ⟨"file:///a", .cursor ⟨26, 16⟩⟩
    ∧ affects ⟨"file:///a", .cursor ⟨14, 16⟩⟩
        ⟨"file:///a", .contentChange ⟨⟨⟨14, 5⟩, ⟨14, 16⟩⟩, -1,
          "Some added content that does not matter for the tests"⟩⟩
      = .REPLACEMENT ⟨"file:///a", .cursor ⟨14, 27⟩⟩ := by decide

/-- Claim C4 counterexample: an edit lying on the candidate's line strictly after
it in character order does not yield NOT_AFFECTED as the claim states:
`affects` returns a replacement (whose payload happens to equal the
candidate's) instead of `false`. -/
theorem c4_after_same_line_counterexample :
    affects ⟨"file:///a", .cursor ⟨14, 16⟩⟩
        ⟨"file:///a", .contentChange ⟨⟨⟨14, 17⟩, ⟨14, 30⟩⟩, -1, "x"⟩⟩
      = .REPLACEMENT ⟨"file:///a", .cursor ⟨14, 16⟩⟩ := by decide

/-- Claim C8: for every pair of locations whose (normalized string) uris differ,
`affects` returns NOT_AFFECTED, regardless of the variants and ranges
involved. -/
theorem c8_different_uri_not_affected (c o : NavigationLocation)
    (h : c.uri ≠ o.uri) : affects c o = .NOT_AFFECTED :=
  affects_of_ne_uri c o h

/-- Claim C8 witness: concrete cursor locations on different resources. -/
theorem c8_different_uri_not_affected_witness :
    affects ⟨"file:///a", .cursor ⟨0, 0⟩⟩ ⟨"file:///b", .cursor ⟨0, 0⟩⟩
      = .NOT_AFFECTED :=
  c8_different_uri_not_affected
    ⟨"file:///a", .cursor ⟨0, 0⟩⟩ ⟨"file:///b", .cursor ⟨0, 0⟩⟩ (by decide)

/-- Claim C10: for every pair of inputs, `affects` returns `false` or a
replacement location; the DELETED (`undefined`) outcome is unreachable. -/
theorem c10_never_deleted (c o : NavigationLocation) :
    affects c o = .NOT_AFFECTED ∨ ∃ r, affects c o = .REPLACEMENT r := by
  obtain ⟨ouri, octx⟩ := o
  cases octx with
  | cursor p => exact Or.inl rfl
  | selection r => exact Or.inl rfl
  | contentChange delta =>
    by_cases huri : c.uri = ouri
    · rw [affects_contentChange_same_uri c ouri delta huri]
      split
      · exact Or.inr ⟨_, rfl⟩
      · exact Or.inl rfl
    · exact Or.inl (affects_of_ne_uri c _ huri)

/-- Claim C9: whenever `affects` returns a replacement, the replacement has the
candidate's uri and the candidate's variant tag, and a content-change
candidate keeps its `rangeLength` and `text` payload fields — only the
range is adjusted. -/
theorem c9_replacement_preserves_uri_type_payload (c o r : NavigationLocation)
    (hr : affects c o = .REPLACEMENT r) :
    r.uri = c.uri ∧ r.type = c.type
    ∧ r.context.ccRangeLength = c.context.ccRangeLength
    ∧ r.context.ccText = c.context.ccText := by
  obtain ⟨ouri, octx⟩ := o
  cases octx with
  | cursor p => simp [affects] at hr
  | selection rg => simp [affects] at hr
  | contentChange delta =>
    by_cases huri : c.uri = ouri
    · rw [affects_contentChange_same_uri c ouri delta huri] at hr
      split at hr
      · injection hr with hr1
        subst hr1
        obtain ⟨curi, cctx⟩ := c
        cases cctx <;>
          simp [handleBefore, NavigationLocation.type, LocationContext.ccRangeLength,
            LocationContext.ccText]
      · simp at hr
    · rw [affects_of_ne_uri c _ huri] at hr
      simp at hr

/-- Claim C9 witness: a content-change candidate updated by an earlier-line edit
keeps uri, variant and payload fields. -/
theorem c9_replacement_preserves_uri_type_payload_witness :
    (⟨"file:///a", .contentChange ⟨⟨⟨8, 1⟩, ⟨9, 2⟩⟩, 7, "abc"⟩⟩ : NavigationLocation).uri
        = (⟨"file:///a", .contentChange ⟨⟨⟨14, 1⟩, ⟨15, 2⟩⟩, 7, "abc"⟩⟩ : NavigationLocation).uri
    ∧ (⟨"file:///a", .contentChange ⟨⟨⟨8, 1⟩, ⟨9, 2⟩⟩, 7, "abc"⟩⟩ : NavigationLocation).type
        = (⟨"file:///a", .contentChange ⟨⟨⟨14, 1⟩, ⟨15, 2⟩⟩, 7, "abc"⟩⟩ : NavigationLocation).type
    ∧ LocationContext.ccRangeLength (.contentChange ⟨⟨⟨8, 1⟩, ⟨9, 2⟩⟩, 7, "abc"⟩)
        = LocationContext.ccRangeLength (.contentChange ⟨⟨⟨14, 1⟩, ⟨15, 2⟩⟩, 7, "abc"⟩)
    ∧ LocationContext.ccText (.contentChange ⟨⟨⟨8, 1⟩, ⟨9, 2⟩⟩, 7, "abc"⟩)
        = LocationContext.ccText (.contentChange ⟨⟨⟨14, 1⟩, ⟨15, 2⟩⟩, 7, "abc"⟩) :=
  c9_replacement_preserves_uri_type_payload
    ⟨"file:///a", .contentChange ⟨⟨⟨14, 1⟩, ⟨15, 2⟩⟩, 7, "abc"⟩⟩
    ⟨"file:///a", .contentChange ⟨⟨⟨2, 0⟩, ⟨8, 3⟩⟩, -1, ""⟩⟩
    ⟨"file:///a", .contentChange ⟨⟨⟨8, 1⟩, ⟨9, 2⟩⟩, 7, "abc"⟩⟩ (by decide)

/-- Claim C5: for every candidate and same-uri content-change edit whose maximum
line lies strictly before the candidate's minimum line, `affects` returns a
replacement whose range is the candidate's shifted only on the line axis by
the signed line delta (`|other.start.line - other.end.line|`, subtracted for
a pure deletion, added for an insertion), with every character coordinate
unchanged. -/
theorem c5_before_line_shift (c : NavigationLocation) (ouri : String)
    (delta : TextDocumentContentChangeDelta) (huri : c.uri = ouri)
    (hline : max delta.range.start.line delta.range.«end».line
      < min c.context.toRange.start.line c.context.toRange.«end».line) :
    affects c ⟨ouri, .contentChange delta⟩
      = .REPLACEMENT ⟨c.uri, c.context.withRange
          ⟨⟨c.context.toRange.start.line + signedLineDelta delta,
              c.context.toRange.start.character⟩,
            ⟨c.context.toRange.«end».line + signedLineDelta delta,
              c.context.toRange.«end».character⟩⟩⟩ := by
  rw [affects_contentChange_same_uri c ouri delta huri]
  rw [if_pos (Or.inr hline)]
  rw [if_neg (ne_of_lt hline)]
  obtain ⟨curi, cctx⟩ := c
  cases cctx <;> by_cases ht : delta.text = "" <;>
    simp [handleBefore, shiftLine, shiftCharacter, shiftLinePos, shiftCharacterPos,
      LocationContext.withRange, LocationContext.toRange, signedLineDelta, ht,
      mul_neg_one]

/-- Claim C5 witness: the cursor at `(14,16)` with a pure deletion of
`(8,0)-(2,38)` moves to `(8,16)`: the line axis shifts by the deleted span
and the character is unchanged. -/
theorem c5_before_line_shift_witness :
    affects ⟨"file:///a", .cursor ⟨14, 16⟩⟩
        ⟨"file:///a", .contentChange ⟨⟨⟨8, 0⟩, ⟨2, 38⟩⟩, -1, ""⟩⟩
      = .REPLACEMENT ⟨"file:///a", .cursor ⟨8, 16⟩⟩ := by
  exact c5_before_line_shift ⟨"file:///a", .cursor ⟨14, 16⟩⟩ "file:///a"
    ⟨⟨⟨8, 0⟩, ⟨2, 38⟩⟩, -1, ""⟩ rfl (by decide)

/-- Claim C7: whenever a same-uri content-change edit makes `affects` return a
replacement, the replacement's character coordinates are the candidate's
shifted by exactly the spec's character-delta rule (`charDeltaSpec`, applied
with the deletion/insertion sign): `candidateMinCharacter -
other.start.character` when the edit's start sits on the shared max line at
or before the candidate's min character, else `candidateMinCharacter -
other.end.character` when the edit's end character is at or before the
candidate's min character; in every other situation no character-axis shift
is applied. -/
theorem c7_character_delta_rule (c : NavigationLocation) (ouri : String)
    (delta : TextDocumentContentChangeDelta) (r : NavigationLocation)
    (hr : affects c ⟨ouri, .contentChange delta⟩ = .REPLACEMENT r) :
    r.context.toRange.start.character
        = c.context.toRange.start.character
          + signedCharDelta c.context.toRange delta.range delta.text
    ∧ r.context.toRange.«end».character
        = c.context.toRange.«end».character
          + signedCharDelta c.context.toRange delta.range delta.text := by
  by_cases huri : c.uri = ouri
  · rw [affects_contentChange_same_uri c ouri delta huri] at hr
    split at hr
    · injection hr with hr1
      subst hr1
      obtain ⟨curi, cctx⟩ := c
      cases cctx <;>
        · simp only [handleBefore, LocationContext.toRange, shiftLine, shiftCharacter,
            shiftLinePos, shiftCharacterPos, signedCharDelta, charDeltaSpec]
          split_ifs <;>
            · dsimp only [Option.map]
              constructor <;> omega
    · simp at hr
  · rw [affects_of_ne_uri c _ huri] at hr
    simp at hr

/-- Claim C7 witness: the cursor at `(14,16)` and the pure deletion over
`(14,2)-(14,6)`: the selected delta is `16 - 2 = 14`, applied with the
deletion sign, on both endpoints of the replacement's point range. -/
theorem c7_character_delta_rule_witness :
    ((2 : Int) = 16 + signedCharDelta ⟨⟨14, 16⟩, ⟨14, 16⟩⟩ ⟨⟨14, 2⟩, ⟨14, 6⟩⟩ "")
    ∧ ((2 : Int) = 16 + signedCharDelta ⟨⟨14, 16⟩, ⟨14, 16⟩⟩ ⟨⟨14, 2⟩, ⟨14, 6⟩⟩ "") :=
  c7_character_delta_rule ⟨"file:///a", .cursor ⟨14, 16⟩⟩ "file:///a"
    ⟨⟨⟨14, 2⟩, ⟨14, 6⟩⟩, -1, ""⟩ ⟨"file:///a", .cursor ⟨14, 2⟩⟩ (by decide)

/-- Claim C4 amended: an edit whose maximum line is strictly greater than the
candidate's minimum line yields NOT_AFFECTED; but an edit lying entirely on
the candidate's minimum line strictly after the candidate's minimum
character does not yield `false` — it yields a replacement structurally
identical to the candidate (no shift is applied), so the candidate's value
is never changed by an edit strictly after it, while the result is not the
literal `false` in the same-line case. -/
theorem c4_after_edit_amended :
    (∀ c o : NavigationLocation,
      min c.context.toRange.start.line c.context.toRange.«end».line
          < max o.context.toRange.start.line o.context.toRange.«end».line →
      affects c o = .NOT_AFFECTED)
    ∧ ∀ (c : NavigationLocation) (ouri : String)
        (delta : TextDocumentContentChangeDelta),
      c.uri = ouri →
      delta.range.start.line = delta.range.«end».line →
      delta.range.«end».line
          = min c.context.toRange.start.line c.context.toRange.«end».line →
      min c.context.toRange.start.character c.context.toRange.«end».character
          < delta.range.start.character →
      min c.context.toRange.start.character c.context.toRange.«end».character
          < delta.range.«end».character →
      affects c ⟨ouri, .contentChange delta⟩ = .REPLACEMENT c := by
  constructor
  · intro c o hline
    obtain ⟨ouri, octx⟩ := o
    cases octx with
    | cursor p => rfl
    | selection rg => rfl
    | contentChange delta =>
      by_cases huri : c.uri = ouri
      · have hline' : min c.context.toRange.start.line c.context.toRange.«end».line
            < max delta.range.start.line delta.range.«end».line := hline
        have hcond : ¬(max delta.range.start.line delta.range.«end».line
              = min c.context.toRange.start.line c.context.toRange.«end».line
            ∨ max delta.range.start.line delta.range.«end».line
              < min c.context.toRange.start.line c.context.toRange.«end».line) := by
          intro hc
          rcases hc with h1 | h2 <;> omega
        rw [affects_contentChange_same_uri c ouri delta huri, if_neg hcond]
      · exact affects_of_ne_uri c _ huri
  · intro c ouri delta huri hsame hmin hs he
    have h1 : max delta.range.start.line delta.range.«end».line
        = min c.context.toRange.start.line c.context.toRange.«end».line := by omega
    have h2 : ¬(delta.range.start.line = max delta.range.start.line delta.range.«end».line
        ∧ delta.range.start.character
          ≤ min c.context.toRange.start.character c.context.toRange.«end».character) := by
      rintro ⟨ha, hb⟩
      omega
    have h3 : ¬(delta.range.«end».character
        ≤ min c.context.toRange.start.character c.context.toRange.«end».character) := by
      omega
    have hdiff : ((delta.range.start.line - delta.range.«end».line).natAbs : Int) = 0 := by
      omega
    rw [affects_contentChange_same_uri c ouri delta huri, if_pos (Or.inl h1), if_pos h1,
      if_neg h2, if_neg h3, hdiff]
    obtain ⟨curi, cctx⟩ := c
    cases cctx <;> by_cases ht : delta.text = "" <;>
      simp [handleBefore, shiftLine, shiftCharacter, shiftLinePos, shiftCharacterPos,
        LocationContext.toRange, ht]

/-- Claim C4 amended witness: a later-line edit yields NOT_AFFECTED, and a
same-line strictly-after edit yields an identity replacement. -/
theorem c4_after_edit_amended_witness :
    affects ⟨"file:///a", .cursor ⟨14, 16⟩⟩
        ⟨"file:///a", .contentChange ⟨⟨⟨16, 0⟩, ⟨16, 4⟩⟩, -1, "x"⟩⟩
      = .NOT_AFFECTED
    ∧ affects ⟨"file:///a", .cursor ⟨3, 4⟩⟩
        ⟨"file:///a", .contentChange ⟨⟨⟨3, 10⟩, ⟨3, 12⟩⟩, -1, ""⟩⟩
      = .REPLACEMENT ⟨"file:///a", .cursor ⟨3, 4⟩⟩ :=
  ⟨c4_after_edit_amended.1 ⟨"file:///a", .cursor ⟨14, 16⟩⟩
      ⟨"file:///a", .contentChange ⟨⟨⟨16, 0⟩, ⟨16, 4⟩⟩, -1, "x"⟩⟩ (by decide),
    c4_after_edit_amended.2 ⟨"file:///a", .cursor ⟨3, 4⟩⟩ "file:///a"
      ⟨⟨⟨3, 10⟩, ⟨3, 12⟩⟩, -1, ""⟩ rfl (by decide) (by decide) (by decide) (by decide)⟩

end Theia
